import Mathlib

/-!
Shallow embedding of `src/main.py` of the sorbit-sih/backend repository
(Jharkhand Tourism backend): the chat intent-routing and itinerary logic,
the Gemini gateway post-processing, and the transaction forward/verify
proxy endpoints, together with theorems settling the frozen claims.

Python strings are modelled as Lean `String` (lists of unicode scalar
values).  Case mapping (`str.lower`, `str.capitalize`) is modelled on the
ASCII range, matching the ASCII place names and interest tags of the
source.  JSON numbers are abstracted to `Int` (no claim depends on
numeric values).  The external HTTP collaborators (ledger service,
Gemini) are modelled by explicit inputs describing the outcome of the
single outbound call that the code makes.
-/

namespace Tourism

/-! ## Character and string helpers (Python semantics) -/

/-- Python regex `\s` character class (ASCII part): space, tab, newline,
carriage return, vertical tab, form feed. -/
def isPySpace (c : Char) : Bool :=
  c == ' ' || c == '\t' || c == '\n' || c == '\r' || c == '\x0b' || c == '\x0c'

/-- Whether the first list is a leading segment of the second
(Python `startswith` on char lists; used to model regex literals). -/
def startsWithL : List Char → List Char → Bool
  | [], _ => true
  | _ :: _, [] => false
  | p :: ps, c :: cs => p == c && startsWithL ps cs

/-- Whether the first list occurs contiguously inside the second:
Python's substring operator `needle in hay`. -/
def infixOfL (needle : List Char) : List Char → Bool
  | [] => startsWithL needle []
  | c :: t => startsWithL needle (c :: t) || infixOfL needle t

/-- Python `needle in hay` on strings. -/
def substrB (needle hay : String) : Bool :=
  infixOfL needle.data hay.data

/-- Python `str.lower` (ASCII range). -/
def pyLower (s : String) : String :=
  String.mk (s.data.map Char.toLower)

/-- Python `str.capitalize`: first character upper-cased, the rest
lower-cased (ASCII range). -/
def pyCapitalize (s : String) : String :=
  match s.data with
  | [] => ""
  | c :: rest => String.mk (c.toUpper :: rest.map Char.toLower)

/-- Python `str.strip()`: remove leading and trailing whitespace. -/
def pyStrip (s : String) : String :=
  String.mk (((s.data.dropWhile isPySpace).reverse.dropWhile isPySpace).reverse)

/-- Python `sep.join(blocks)`: empty string on the empty list, otherwise
the first block followed by separator-prefixed remaining blocks. -/
def joinSep (sep : String) : List String → String
  | [] => ""
  | a :: as => List.foldl (fun acc b => acc ++ sep ++ b) a as

/-- Value of a digit list read in base 10 (Python `int` on a digit
string). -/
def digitsToNat (cs : List Char) : Nat :=
  List.foldl (fun a c => a * 10 + (c.toNat - 48)) 0 cs

/-- `re.sub` of pattern "backslash-n, twice or more" by a single newline
(`main.py` line 120): every maximal run of newlines is replaced by one
newline.  A run of length one is already a single newline, so emitting
one newline per maximal run is exactly the substitution the code
performs. -/
def collapseNewlines : List Char → List Char
  | [] => []
  | [c] => [c]
  | c1 :: c2 :: rest =>
    if c1 = '\n' ∧ c2 = '\n' then collapseNewlines (c2 :: rest)
    else c1 :: collapseNewlines (c2 :: rest)

/-! ## JSON values (ledger service bodies) -/

/-- Parsed JSON, as produced by `response.json()`.  Numbers are
abstracted to `Int`: no claim inspects a numeric value, only string
equality against `txID` matters.  Objects are association lists with
distinct keys (the image of a Python dict). -/
inductive Json where
  | null : Json
  | bool (b : Bool) : Json
  | num (n : Int) : Json
  | str (s : String) : Json
  | arr (elems : List Json) : Json
  | obj (fields : List (String × Json)) : Json

/-- Python `dict.get k`: first binding of `k`, if any. -/
def jget : List (String × Json) → String → Option Json
  | [], _ => none
  | (k, v) :: rest, key => if k == key then some v else jget rest key

/-- Python `value == tx_id` where `tx_id` is a `str`: true exactly when
the JSON value is a string equal to it. -/
def jsonIsStr (j : Json) (s : String) : Bool :=
  match j with
  | Json.str t => t == s
  | _ => false

/-! ## The transaction proxy (`record_transaction`, `verify_transaction`) -/

/-- Outcome of the single outbound `httpx` call an endpoint makes:
either the request itself failed (`httpx.RequestError`), or a response
arrived with a status code, its raw body text, and — when the text is
valid JSON — its parse (`none` models a body on which `response.json()`
raises `json.JSONDecodeError`). -/
inductive Upstream where
  | transportError : Upstream
  | response (status : Nat) (text : String) (body : Option Json) : Upstream

/-- The Python exceptions that can escape the `try` bodies of the two
proxy endpoints.  `httpExc` models `fastapi.HTTPException` raised inside
the `try` block: it subclasses `Exception` but none of
`httpx.RequestError`, `httpx.HTTPStatusError`, `json.JSONDecodeError`,
so only a bare `except Exception` clause catches it.  `attrError` models
the `AttributeError` from calling `.get` on a non-dict list element. -/
inductive PyExn where
  | requestError : PyExn
  | statusError (status : Nat) (bodyText : String) : PyExn
  | jsonError : PyExn
  | httpExc (code : Nat) (detail : String) : PyExn
  | attrError : PyExn

/-- What an endpoint reports to its caller: a JSON body, or an
`HTTPException` with a status code and a detail string. -/
inductive ProxyResult where
  | ok (body : Json) : ProxyResult
  | err (status : Nat) (detail : String) : ProxyResult

/-- `httpx.Response.raise_for_status` raises unless the status is 2xx. -/
def is2xx (status : Nat) : Prop := 200 ≤ status ∧ status < 300

instance (status : Nat) : Decidable (is2xx status) := by
  unfold is2xx; infer_instance

/-- The loop of `verify_transaction` (`main.py` lines 246-255): scan the
records in order; `sale.get("txID") == tx_id` selects the first match;
a non-dict element raises `AttributeError` at `sale.get`; exhausting the
list raises `HTTPException(404, ...)` — inside the `try` block. -/
def scanSales (txId : String) : List Json → Except PyExn Json
  | [] => Except.error (PyExn.httpExc 404 "Transaction ID not found for the given product.")
  | j :: rest =>
    match j with
    | Json.obj fields =>
      match jget fields "txID" with
      | some v => if jsonIsStr v txId then Except.ok j else scanSales txId rest
      | none => scanSales txId rest
    | _ => Except.error PyExn.attrError

/-- Body of the `try` block of `verify_transaction` after the GET
returned a response (`main.py` lines 236-255): `raise_for_status`, then
`response.json()`, then the list-shape check (raising
`HTTPException(500, "Invalid response format...")` inside the `try`),
then the scan. -/
def verifyBody (txId : String) (status : Nat) (text : String) (body : Option Json) :
    Except PyExn Json :=
  if is2xx status then
    match body with
    | none => Except.error PyExn.jsonError
    | some sales =>
      match sales with
      | Json.arr items => scanSales txId items
      | _ => Except.error (PyExn.httpExc 500 "Invalid response format from blockchain service.")
  else Except.error (PyExn.statusError status text)

/-- The whole attempt of `verify_transaction`: a transport failure is
`httpx.RequestError`; otherwise the `try` body runs on the response. -/
def verifyAttempt (txId : String) : Upstream → Except PyExn Json
  | Upstream.transportError => Except.error PyExn.requestError
  | Upstream.response status text body => verifyBody txId status text body

/-- The `except` clauses of `verify_transaction` (`main.py` lines
257-275), in source order: `httpx.RequestError` → 503,
`httpx.HTTPStatusError` → 502 carrying the upstream body text,
`json.JSONDecodeError` → 500 non-JSON, and `except Exception` → 500
generic.  The final clause also catches the two `HTTPException`s raised
inside the `try` (the 404 not-found and the 500 invalid-format), because
`HTTPException` subclasses `Exception`. -/
def verifyHandler : PyExn → ProxyResult
  | PyExn.requestError => ProxyResult.err 503 "The blockchain service is unavailable."
  | PyExn.statusError _ text =>
      ProxyResult.err 502 ("An error occurred in the blockchain service: " ++ text)
  | PyExn.jsonError =>
      ProxyResult.err 500 "Received an invalid (non-JSON) response from the blockchain service."
  | PyExn.httpExc _ _ => ProxyResult.err 500 "An internal error occurred during verification."
  | PyExn.attrError => ProxyResult.err 500 "An internal error occurred during verification."

/-- `GET /verify-transaction` (`main.py` lines 219-275), as a function of
the requested `tx_id` and the outcome of the single upstream GET.  The
`product_id` only selects the upstream URL and is absorbed into the
`Upstream` value. -/
def verify_transaction (txId : String) (up : Upstream) : ProxyResult :=
  match verifyAttempt txId up with
  | Except.ok sale => ProxyResult.ok sale
  | Except.error e => verifyHandler e

/-- The payload built by `record_transaction` (`main.py` lines 195-198):
both fields coerced to strings.  `toString pid` is Python `str` on the
`int`; the price is a `float` whose Python `str` image is carried
abstractly as the string `priceS` (floating-point repr is not
modelled). -/
def recordPayload (pid : Int) (priceS : String) : List (String × String) :=
  [("product_id", toString pid), ("price", priceS)]

/-- Body of the `try` block of `record_transaction` after the POST
returned a response: `raise_for_status`, then `response.json()`. -/
def recordBody (status : Nat) (text : String) (body : Option Json) : Except PyExn Json :=
  if is2xx status then
    match body with
    | none => Except.error PyExn.jsonError
    | some j => Except.ok j
  else Except.error (PyExn.statusError status text)

/-- The `except` clauses of `record_transaction` (`main.py` lines
211-216): `httpx.RequestError` → 503, everything else (in particular the
`HTTPStatusError` of a non-2xx status and the `JSONDecodeError` of a
non-JSON body) → 500 generic. -/
def recordHandler : PyExn → ProxyResult
  | PyExn.requestError => ProxyResult.err 503 "The blockchain service is unavailable."
  | _ => ProxyResult.err 500 "An internal error occurred."

/-- `POST /record-transaction` (`main.py` lines 187-216): returns the
payload sent upstream together with the endpoint's result for the given
outcome of the single upstream POST (the code performs exactly one
outbound call — no retry). -/
def record_transaction (pid : Int) (priceS : String) (up : Upstream) :
    List (String × String) × ProxyResult :=
  (recordPayload pid priceS,
    match (match up with
           | Upstream.transportError => Except.error PyExn.requestError
           | Upstream.response status text body => recordBody status text body) with
    | Except.ok j => ProxyResult.ok j
    | Except.error e => recordHandler e)

/-! ## The Gemini gateway (`query_gemini`) -/

/-- What the model call yields inside the `try` of `query_gemini`: the
finish reason name of the first candidate and the response text (already
`or ""`-defaulted). -/
structure GeminiResponse where
  finishReason : String
  text : String

/-- `query_gemini` (`main.py` lines 97-127) as a function of the outcome
of the model invocation; `Except.error` models any exception raised by
the call or while reading the response, caught by the function's own
`except Exception`. -/
def query_gemini (resp : Except Unit GeminiResponse) : String :=
  match resp with
  | Except.error _ => "Sorry, an error occurred while contacting the AI model."
  | Except.ok r =>
    if pyStrip r.text = "OUT_OF_CONTEXT" then
      "I can only answer questions about Jharkhand tourism. How can I help you with your trip?"
    else if r.finishReason = "STOP" then
      String.mk (collapseNewlines (pyStrip r.text).data)
    else
      "I couldn't complete the response. Please try rephrasing your question."

/-! ## The chat endpoint (`chat`) -/

/-- A place's info dict from `places.json`, restricted to string values
(the shape the source reads: description, best time, activities). -/
abbrev PlaceInfo := List (String × String)

/-- The knowledge base `places`: a dict, i.e. an ordered association
list with distinct keys.  `places.json` is not part of the repository,
so the content is left abstract. -/
abbrev KB := List (String × PlaceInfo)

/-- Python `dict.get k` on a place info dict. -/
def pget : PlaceInfo → String → Option String
  | [], _ => none
  | (k, v) :: rest, key => if k == key then some v else pget rest key

/-- `places.get(name, default-empty-dict)`. -/
def kbGet : KB → String → PlaceInfo
  | [], _ => []
  | (k, v) :: rest, key => if k == key then v else kbGet rest key

/-- The static `interest_map` of `main.py` lines 56-60, in insertion
order. -/
def interest_map : List (String × List String) :=
  [("nature", ["netarhat", "patratu", "hundru"]),
   ("wildlife", ["betla"]),
   ("pilgrimage", ["deoghar"])]

/-- `interest_map.get(i, [])`. -/
def imGet (i : String) : List String :=
  match interest_map.find? (fun p => p.1 == i) with
  | some p => p.2
  | none => []

/-- `main.py` line 149: interests whose tag occurs in the message, in
`interest_map` order, defaulting to nature when none matches. -/
def interestsOf (m : String) : List String :=
  if ((interest_map.map Prod.fst).filter (fun i => substrB i m)).isEmpty then ["nature"]
  else (interest_map.map Prod.fst).filter (fun i => substrB i m)

/-- `main.py` line 150, first alternative: concatenation of the place
lists of the matched interests (duplicates kept). -/
def concatPlaces (m : String) : List String :=
  (interestsOf m).flatMap imGet

/-- `main.py` line 150: the candidate places, falling back to all
knowledge-base keys when the concatenation is empty. -/
def candidates (kb : KB) (m : String) : List String :=
  if (concatPlaces m).isEmpty then kb.map Prod.fst else concatPlaces m

/-- `re.search` of the pattern "digit group, optional whitespace, day"
(`main.py` line 147), returning the captured number: the leftmost
position where a digit run, optional whitespace and the literal `day`
match.  Backtracking inside the digit run never helps (a given-back
character is a digit, which can start neither the whitespace nor `day`),
so the maximal run at the position is the captured group. -/
def daysSearch : List Char → Option Nat
  | [] => none
  | c :: rest =>
    if c.isDigit then
      if startsWithL ['d', 'a', 'y'] (((c :: rest).dropWhile Char.isDigit).dropWhile isPySpace)
      then some (digitsToNat ((c :: rest).takeWhile Char.isDigit))
      else daysSearch rest
    else daysSearch rest

/-- `main.py` lines 147-148: extracted day count, defaulting to 3. -/
def dayCountOf (m : String) : Nat :=
  (daysSearch m.data).getD 3

/-- Continuation of the `plan.*day` match after the literal `plan`: the
literal `day` is reachable through characters that `.` can consume, i.e.
with no newline in between. -/
def dayReachable : List Char → Bool
  | [] => false
  | c :: rest => startsWithL ['d', 'a', 'y'] (c :: rest) || (c != '\n' && dayReachable rest)

/-- `re.search` of `plan.*day` (`main.py` line 146): some position
starts with the literal `plan` from which `day` is reachable without
crossing a newline. -/
def planDaySearch : List Char → Bool
  | [] => false
  | c :: rest =>
    (startsWithL ['p', 'l', 'a', 'n'] (c :: rest) && dayReachable (rest.drop 3))
      || planDaySearch rest

/-- The itinerary intent test of `main.py` line 146 on the lowercased
message. -/
def itineraryIntent (m : String) : Bool :=
  substrB "itinerary" m || planDaySearch m.data

/-- One rendered day entry (`main.py` lines 159-163): the value stored
into the `plan` dict for a day — note it does not include the dict key
"Day i+1". -/
def dayBlock (kb : KB) (p : String) : String :=
  "📍 " ++ pyCapitalize p ++ " - " ++ ((pget (kbGet kb p) "description").getD "N/A") ++
    "\n   🕒 Best time: " ++ ((pget (kbGet kb p) "best_time").getD "N/A") ++
    "\n   🎯 Activities: " ++ ((pget (kbGet kb p) "activities").getD "N/A")

/-- The values of the `plan` dict in insertion order: the keys
"Day 1" ... "Day n" are pairwise distinct, so the dict has exactly one
entry per loop iteration and `plan.values()` lists the rendered blocks
in day order. -/
def dayBlocks (kb : KB) (m : String) : List String :=
  (List.range (dayCountOf m)).map
    (fun i => dayBlock kb ((candidates kb m).getD (i % (candidates kb m).length) ""))

/-- The itinerary branch of `chat` (`main.py` lines 146-164). -/
def buildItinerary (kb : KB) (m : String) : String :=
  if (candidates kb m).isEmpty then "I couldn't find any places matching your interests."
  else joinSep "\n\n" (dayBlocks kb m)

/-- The fixed greeting of `main.py` line 143. -/
def greetingMsg : String :=
  "👋 Hello! Welcome to Jharkhand Tourism Chatbot. How can I help you today?"

/-- The direct-lookup loop of `main.py` lines 166-168: the first place
whose key occurs in the message. -/
def firstMatch : KB → String → Option (String × PlaceInfo)
  | [], _ => none
  | e :: rest, m => if substrB e.1 m then some e else firstMatch rest m

/-- Result of the chat handler: a reply, or an uncaught Python exception
propagating out of the endpoint (surfaced by the framework as a 500). -/
inductive ChatOutcome where
  | ok (reply : String) : ChatOutcome
  | exn : ChatOutcome

/-- The post-greeting part of `chat` (`main.py` lines 146-176) on the
lowercased message.  The itinerary and lookup branches run outside any
`try`; the lookup's `info['description']` raises `KeyError` when the
matched place has no description — modelled by `ChatOutcome.exn`.  Only
the Gemini fallback is guarded: `g` is the outcome of awaiting
`query_gemini`, and its `except Exception` clause produces the fixed
apology. -/
def chatBody (kb : KB) (m : String) (g : Except Unit String) : ChatOutcome :=
  if itineraryIntent m then ChatOutcome.ok (buildItinerary kb m)
  else
    match firstMatch kb m with
    | some e =>
      match pget e.2 "description" with
      | some d => ChatOutcome.ok (pyCapitalize e.1 ++ ": " ++ d)
      | none => ChatOutcome.exn
    | none =>
      match g with
      | Except.ok r => ChatOutcome.ok r
      | Except.error _ => ChatOutcome.ok "❌ Sorry, I had trouble processing your request."

/-- `POST /chat` (`main.py` lines 136-176): lowercase the message, then
the greeting gate on the `greeted_users` set (returned as the new set),
then the knowledge-base logic. -/
def chat (kb : KB) (greeted : List String) (uid msg : String) (g : Except Unit String) :
    ChatOutcome × List String :=
  if uid ∈ greeted then (chatBody kb (pyLower msg) g, greeted)
  else (ChatOutcome.ok greetingMsg, uid :: greeted)

/-! ## Helper facts -/

/-- Whether a scanned record is a dict whose `txID` entry is the
requested transaction id (the success test of the verification loop). -/
def txMatches (txId : String) : Json → Bool
  | Json.obj fields =>
    match jget fields "txID" with
    | some v => jsonIsStr v txId
    | none => false
  | _ => false

lemma scanSales_unmatched (txId : String) :
    ∀ items : List Json, (∀ j ∈ items, txMatches txId j = false) →
      ∃ e, scanSales txId items = Except.error e ∧
        verifyHandler e = ProxyResult.err 500 "An internal error occurred during verification." := by
  intro items
  induction items with
  | nil =>
    intro _
    exact ⟨PyExn.httpExc 404 "Transaction ID not found for the given product.", rfl, rfl⟩
  | cons j rest ih =>
    intro h
    have hj := h j (List.mem_cons_self j rest)
    have hrest := ih (fun x hx => h x (List.mem_cons_of_mem j hx))
    cases j with
    | obj fields =>
      cases hv : jget fields "txID" with
      | some v =>
        have hj2 : jsonIsStr v txId = false := by simpa [txMatches, hv] using hj
        simpa [scanSales, hv, hj2] using hrest
      | none =>
        simpa [scanSales, hv] using hrest
    | null => exact ⟨PyExn.attrError, rfl, rfl⟩
    | bool b => exact ⟨PyExn.attrError, rfl, rfl⟩
    | num n => exact ⟨PyExn.attrError, rfl, rfl⟩
    | str s => exact ⟨PyExn.attrError, rfl, rfl⟩
    | arr l => exact ⟨PyExn.attrError, rfl, rfl⟩

lemma firstMatch_mem : ∀ (kb : KB) (m : String) (e : String × PlaceInfo),
    firstMatch kb m = some e → e ∈ kb := by
  intro kb m e
  induction kb with
  | nil => intro h; simp [firstMatch] at h
  | cons x rest ih =>
    intro h
    by_cases hx : substrB x.1 m
    · simp [firstMatch, hx] at h
      simp [h]
    · simp [firstMatch, hx] at h
      exact List.mem_cons_of_mem x (ih h)

lemma firstMatch_append_skip (m : String) :
    ∀ pre kb : KB, (∀ e ∈ pre, substrB e.1 m = false) →
      firstMatch (pre ++ kb) m = firstMatch kb m := by
  intro pre kb
  induction pre with
  | nil => intro _; rfl
  | cons x rest ih =>
    intro h
    have hx := h x (List.mem_cons_self x rest)
    have := ih (fun e he => h e (List.mem_cons_of_mem x he))
    simp [firstMatch, hx, this]

/-! ## Claim C1 -/

/-- C1: when the ledger answers a verification request with a 2xx JSON
array containing no record whose `txID` equals the requested id, the
endpoint does NOT produce the distinct 404 not-found condition: the
`HTTPException(404)` raised at `main.py` line 255 sits inside the `try`
block and is caught by its own `except Exception` clause (line 272),
which replaces it with the generic 500 internal-error condition — so the
not-found outcome is in fact conflated with the
upstream-contract-violation and internal-error bucket. -/
theorem C1_not_found_swallowed_to_500 (txId text : String) (status : Nat) (items : List Json)
    (h2 : is2xx status) (hno : ∀ j ∈ items, txMatches txId j = false) :
    verify_transaction txId (Upstream.response status text (some (Json.arr items)))
      = ProxyResult.err 500 "An internal error occurred during verification." ∧
    ∀ d, verify_transaction txId (Upstream.response status text (some (Json.arr items)))
      ≠ ProxyResult.err 404 d := by
  obtain ⟨e, he, hh⟩ := scanSales_unmatched txId items hno
  have hmain : verify_transaction txId (Upstream.response status text (some (Json.arr items)))
      = ProxyResult.err 500 "An internal error occurred during verification." := by
    simp [verify_transaction, verifyAttempt, verifyBody, if_pos h2, he, hh]
  refine ⟨hmain, ?_⟩
  intro d hcontra
  rw [hmain] at hcontra
  injection hcontra with h1 h2
  exact absurd h1 (by decide)

/-- Witness for C1 at a concrete input: one non-matching record. -/
theorem C1_witness :
    verify_transaction "abc"
        (Upstream.response 200 "[]" (some (Json.arr [Json.obj [("txID", Json.str "zzz")]])))
      = ProxyResult.err 500 "An internal error occurred during verification." :=
  (C1_not_found_swallowed_to_500 "abc" "[]" 200 [Json.obj [("txID", Json.str "zzz")]]
    (by constructor <;> decide) (by decide)).1

/-! ## Claim C7 -/

/-- C7: the verification failure taxonomy at concrete inputs.  Transport
failure gives 503; a non-2xx upstream response gives 502 carrying the
upstream body; a 2xx non-JSON body gives the distinct 500 bad-upstream
detail; but a 2xx body parsing to a non-array does NOT yield the
distinct invalid-format condition: the `HTTPException(500, "Invalid
response format...")` raised at `main.py` line 243 is caught by the
endpoint's own `except Exception` clause and replaced with the generic
internal-error condition, so the invalid-format and generic buckets are
conflated for the caller. -/
theorem C7_invalid_format_conflated :
    verify_transaction "t1" Upstream.transportError
      = ProxyResult.err 503 "The blockchain service is unavailable." ∧
    verify_transaction "t1" (Upstream.response 500 "boom" none)
      = ProxyResult.err 502 ("An error occurred in the blockchain service: " ++ "boom") ∧
    verify_transaction "t1" (Upstream.response 200 "not json" none)
      = ProxyResult.err 500 "Received an invalid (non-JSON) response from the blockchain service." ∧
    verify_transaction "t1" (Upstream.response 200 "{}" (some (Json.obj [])))
      = ProxyResult.err 500 "An internal error occurred during verification." ∧
    verify_transaction "t1" (Upstream.response 200 "{}" (some (Json.obj [])))
      ≠ ProxyResult.err 500 "Invalid response format from blockchain service." := by
  refine ⟨rfl, rfl, rfl, rfl, ?_⟩
  intro h
  injection h with h1 h2
  exact absurd h2 (by decide)

/-- Witness for C7 at the non-array 2xx body. -/
theorem C7_witness :
    verify_transaction "t1" (Upstream.response 200 "{}" (some (Json.obj [])))
      = ProxyResult.err 500 "An internal error occurred during verification." :=
  C7_invalid_format_conflated.2.2.2.1

/-! ## Claim C8 -/

/-- C8: the forwarding endpoint sends both fields as strings (the
integer product id in decimal, the price by its Python string image),
returns a 2xx JSON body verbatim, maps a transport failure to the 503
service-unavailable condition, and maps any non-2xx status or non-JSON
2xx body to the generic 500 internal-error condition.  The model
consumes exactly one upstream outcome: no retry exists in the code. -/
theorem C8_forward_contract (pid : Int) (priceS : String) :
    (∀ up, (record_transaction pid priceS up).1
      = [("product_id", toString pid), ("price", priceS)]) ∧
    (record_transaction pid priceS Upstream.transportError).2
      = ProxyResult.err 503 "The blockchain service is unavailable." ∧
    (∀ status text j, is2xx status →
      (record_transaction pid priceS (Upstream.response status text (some j))).2
        = ProxyResult.ok j) ∧
    (∀ status text body, ¬ is2xx status →
      (record_transaction pid priceS (Upstream.response status text body)).2
        = ProxyResult.err 500 "An internal error occurred.") ∧
    (∀ status text, is2xx status →
      (record_transaction pid priceS (Upstream.response status text none)).2
        = ProxyResult.err 500 "An internal error occurred.") := by
  refine ⟨fun up => rfl, rfl, ?_, ?_, ?_⟩
  · intro status text j h
    simp [record_transaction, recordBody, if_pos h, recordHandler]
  · intro status text body h
    cases body <;> simp [record_transaction, recordBody, if_neg h, recordHandler]
  · intro status text h
    simp [record_transaction, recordBody, if_pos h, recordHandler]

/-- Witness for C8 at concrete inputs covering every branch. -/
theorem C8_witness :
    (record_transaction 7 "19.99" Upstream.transportError).1
      = [("product_id", "7"), ("price", "19.99")] ∧
    (record_transaction 7 "19.99" Upstream.transportError).2
      = ProxyResult.err 503 "The blockchain service is unavailable." ∧
    (record_transaction 7 "19.99" (Upstream.response 201 "" (some (Json.str "r")))).2
      = ProxyResult.ok (Json.str "r") ∧
    (record_transaction 7 "19.99" (Upstream.response 404 "nf" (some Json.null))).2
      = ProxyResult.err 500 "An internal error occurred." ∧
    (record_transaction 7 "19.99" (Upstream.response 200 "x" none)).2
      = ProxyResult.err 500 "An internal error occurred." :=
  ⟨((C8_forward_contract 7 "19.99").1 Upstream.transportError).trans rfl,
   (C8_forward_contract 7 "19.99").2.1,
   (C8_forward_contract 7 "19.99").2.2.1 201 "" (Json.str "r") (by constructor <;> decide),
   (C8_forward_contract 7 "19.99").2.2.2.1 404 "nf" (some Json.null) (by intro h; exact absurd h.2 (by decide)),
   (C8_forward_contract 7 "19.99").2.2.2.2 200 "x" (by constructor <;> decide)⟩

/-! ## Claim C2 -/

/-- C2 counterexample: the claim says any failure anywhere in the chat
path — including the direct place lookup — is absorbed into an apology
reply.  But only the Gemini fallback sits inside the `try` of `chat`
(`main.py` lines 171-176); the direct lookup at lines 166-168 accesses
`info['description']` unguarded, so a knowledge-base entry without a
description raises `KeyError` out of the endpoint: at this concrete
input the handler produces an uncaught exception, not a reply. -/
theorem C2_counterexample :
    (chat [("netarhat", [("best_time", "winter")])] ["u1"] "u1" "netarhat" (Except.ok "hi")).1
      = ChatOutcome.exn := rfl

/-- C2 amended: only the language-model fallback is guarded by the
`try`/`except` of the chat endpoint; the greeting, itinerary and direct
lookup run outside it, and the only failure possible there is a matched
knowledge-base entry lacking a description.  Hence for every knowledge
base whose entries all carry a description the handler always returns a
reply, and when the fallback path is reached and the Gemini call raises,
the reply is the fixed apology string. -/
theorem C2_fallback_only_guard (kb : KB) (s : List String) (uid msg : String)
    (g : Except Unit String)
    (hkb : ∀ e ∈ kb, (pget e.2 "description").isSome = true) :
    (∃ r, (chat kb s uid msg g).1 = ChatOutcome.ok r) ∧
    (uid ∈ s → itineraryIntent (pyLower msg) = false →
      firstMatch kb (pyLower msg) = none → g = Except.error () →
      (chat kb s uid msg g).1
        = ChatOutcome.ok "❌ Sorry, I had trouble processing your request.") := by
  constructor
  · by_cases hc : uid ∈ s
    · by_cases hi : itineraryIntent (pyLower msg)
      · exact ⟨buildItinerary kb (pyLower msg), by simp [chat, hc, chatBody, hi]⟩
      · cases hm : firstMatch kb (pyLower msg) with
        | some e =>
          have hmem := firstMatch_mem kb (pyLower msg) e hm
          have hdesc := hkb e hmem
          cases hd : pget e.2 "description" with
          | some d =>
            exact ⟨pyCapitalize e.1 ++ ": " ++ d, by simp [chat, hc, chatBody, hi, hm, hd]⟩
          | none => rw [hd] at hdesc; simp at hdesc
        | none =>
          cases g with
          | ok r => exact ⟨r, by simp [chat, hc, chatBody, hi, hm]⟩
          | error u =>
            exact ⟨"❌ Sorry, I had trouble processing your request.",
              by simp [chat, hc, chatBody, hi, hm]⟩
    · exact ⟨greetingMsg, by simp [chat, hc]⟩
  · intro hc hi hm hg
    subst hg
    simp [chat, hc, chatBody, hi, hm]

/-- Witness for C2: a well-formed knowledge base, an already-greeted
user, no local match, and a failing Gemini call yield the apology. -/
theorem C2_witness :
    (chat [("betla", [("description", "A national park")])] ["u"] "u" "tell me a joke"
        (Except.error ())).1
      = ChatOutcome.ok "❌ Sorry, I had trouble processing your request." :=
  (C2_fallback_only_guard [("betla", [("description", "A national park")])] ["u"] "u"
      "tell me a joke" (Except.error ()) (by decide)).2 (by decide) (by decide) (by decide) rfl

/-! ## Regex characterizations -/

lemma startsWithL_iff (p : List Char) : ∀ cs, startsWithL p cs = true ↔ ∃ t, cs = p ++ t := by
  induction p with
  | nil => intro cs; simp [startsWithL]
  | cons x xs ih =>
    intro cs
    cases cs with
    | nil => simp [startsWithL]
    | cons c cs' =>
      show (x == c && startsWithL xs cs') = true ↔ _
      rw [Bool.and_eq_true, beq_iff_eq, ih]
      constructor
      · rintro ⟨hxc, t, ht⟩
        exact ⟨t, by simp [ht, hxc]⟩
      · rintro ⟨t, ht⟩
        injection ht with h1 h2
        exact ⟨h1.symm, t, h2⟩

lemma infixOfL_iff (n : List Char) : ∀ h, infixOfL n h = true ↔ ∃ s t, s ++ n ++ t = h := by
  intro h
  induction h with
  | nil =>
    show startsWithL n [] = true ↔ _
    rw [startsWithL_iff]
    constructor
    · rintro ⟨t, ht⟩
      obtain ⟨h1, h2⟩ := List.append_eq_nil.mp ht.symm
      exact ⟨[], [], by simp [h1]⟩
    · rintro ⟨s, t, hst⟩
      obtain ⟨h1, -⟩ := List.append_eq_nil.mp hst
      obtain ⟨-, h2⟩ := List.append_eq_nil.mp h1
      exact ⟨[], by simp [h2]⟩
  | cons c h' ih =>
    show (startsWithL n (c :: h') || infixOfL n h') = true ↔ _
    rw [Bool.or_eq_true, startsWithL_iff, ih]
    constructor
    · rintro (⟨t, ht⟩ | ⟨s, t, hst⟩)
      · exact ⟨[], t, by simpa using ht.symm⟩
      · refine ⟨c :: s, t, ?_⟩
        simp only [List.cons_append]
        rw [hst]
    · rintro ⟨s, t, hst⟩
      cases s with
      | nil => exact Or.inl ⟨t, by simpa using hst.symm⟩
      | cons y s' =>
        simp only [List.cons_append] at hst
        injection hst with h1 h2
        exact Or.inr ⟨s', t, h2⟩

lemma dayReachable_iff : ∀ cs, dayReachable cs = true ↔
    ∃ b c, b ++ ['d', 'a', 'y'] ++ c = cs ∧ '\n' ∉ b := by
  intro cs
  induction cs with
  | nil =>
    constructor
    · intro h
      simp [dayReachable] at h
    · rintro ⟨b, c, h, -⟩
      obtain ⟨h1, -⟩ := List.append_eq_nil.mp h
      obtain ⟨-, h2⟩ := List.append_eq_nil.mp h1
      exact absurd h2 (by decide)
  | cons x rest ih =>
    show (startsWithL ['d', 'a', 'y'] (x :: rest) || (x != '\n' && dayReachable rest)) = true ↔ _
    rw [Bool.or_eq_true, Bool.and_eq_true, startsWithL_iff, bne_iff_ne, ih]
    constructor
    · rintro (⟨t, ht⟩ | ⟨hx, b, c, hbc, hb⟩)
      · refine ⟨[], t, ?_, ?_⟩
        · simpa using ht.symm
        · simp
      · refine ⟨x :: b, c, ?_, ?_⟩
        · simp only [List.cons_append]
          rw [hbc]
        · intro hmem
          rcases List.mem_cons.mp hmem with h | h
          · exact hx h.symm
          · exact hb h
    · rintro ⟨b, c, hbc, hb⟩
      cases b with
      | nil =>
        refine Or.inl ⟨c, ?_⟩
        simpa using hbc.symm
      | cons y b' =>
        simp only [List.cons_append] at hbc
        injection hbc with h1 h2
        refine Or.inr ⟨?_, b', c, h2, fun hmem => hb (List.mem_cons_of_mem y hmem)⟩
        rw [← h1]
        intro hy
        exact hb (by rw [hy]; exact List.mem_cons_self '\n' b')

lemma planDaySearch_iff : ∀ cs, planDaySearch cs = true ↔
    ∃ a b c, a ++ ['p', 'l', 'a', 'n'] ++ b ++ ['d', 'a', 'y'] ++ c = cs ∧ '\n' ∉ b := by
  intro cs
  induction cs with
  | nil =>
    constructor
    · intro h
      simp [planDaySearch] at h
    · rintro ⟨a, b, c, h, -⟩
      obtain ⟨h1, -⟩ := List.append_eq_nil.mp h
      obtain ⟨-, h3⟩ := List.append_eq_nil.mp h1
      exact absurd h3 (by decide)
  | cons x rest ih =>
    show (startsWithL ['p', 'l', 'a', 'n'] (x :: rest) && dayReachable (rest.drop 3)
        || planDaySearch rest) = true ↔ _
    rw [Bool.or_eq_true, Bool.and_eq_true, startsWithL_iff, dayReachable_iff, ih]
    constructor
    · rintro (⟨⟨t, ht⟩, b, c, hbc, hb⟩ | ⟨a, b, c, habc, hb⟩)
      · injection ht with hx hrest
        subst hx
        subst hrest
        have hbc' : b ++ (['d', 'a', 'y'] : List Char) ++ c = t := hbc
        refine ⟨[], b, c, ?_, hb⟩
        simp only [List.nil_append, List.cons_append, List.append_assoc] at hbc' ⊢
        rw [hbc']
        rfl
      · refine ⟨x :: a, b, c, ?_, hb⟩
        simp only [List.cons_append]
        rw [habc]
    · rintro ⟨a, b, c, habc, hb⟩
      cases a with
      | nil =>
        simp only [List.nil_append, List.cons_append, List.append_assoc] at habc
        injection habc with h1 h2
        subst h1
        subst h2
        refine Or.inl ⟨⟨b ++ (['d', 'a', 'y'] ++ c), rfl⟩, b, c, ?_, hb⟩
        show b ++ ['d', 'a', 'y'] ++ c = b ++ (['d', 'a', 'y'] ++ c)
        simp [List.append_assoc]
      | cons y a' =>
        simp only [List.cons_append] at habc
        injection habc with h1 h2
        exact Or.inr ⟨a', b, c, h2, hb⟩

/-! ## Claim C5 -/

/-- The itinerary-trigger condition as the claim words it (this one
definition follows the spec's words, for comparison against the code's
`itineraryIntent`): the message contains "itinerary", or contains
"plan" followed anywhere later by "day". -/
def specIntentCond (m : String) : Prop :=
  ("itinerary".data <:+: m.data) ∨
  ∃ a b c, a ++ "plan".data ++ b ++ "day".data ++ c = m.data

/-- C5 counterexample: a message with "plan", a newline, then "day"
satisfies the claim's trigger condition, yet the code's regex
`plan.*day` does not match across the newline (`.` excludes newlines,
`re.DOTALL` is not set), so the itinerary intent does not trigger. -/
theorem C5_counterexample :
    specIntentCond "plan\nday" ∧ itineraryIntent "plan\nday" = false :=
  ⟨Or.inr ⟨[], ['\n'], [], by decide⟩, by decide⟩

/-- C5 amended: the itinerary intent triggers iff the lowercased message
contains the substring "itinerary", or contains "plan" followed later by
"day" with no newline character strictly between the two literals. -/
theorem C5_amended_trigger_iff (m : String) :
    itineraryIntent m = true ↔
      ("itinerary".data <:+: m.data) ∨
      ∃ a b c, a ++ "plan".data ++ b ++ "day".data ++ c = m.data ∧ '\n' ∉ b := by
  unfold itineraryIntent substrB
  rw [Bool.or_eq_true, infixOfL_iff, planDaySearch_iff]
  exact Iff.rfl

/-- Witness for C5's amended trigger: a message with "plan" then "day"
and no newline between does trigger. -/
theorem C5_witness : itineraryIntent "plan the day" = true :=
  (C5_amended_trigger_iff "plan the day").mpr
    (Or.inr ⟨[], " the ".data, [], by decide, by decide⟩)

/-! ## String-shape helpers for the chat replies -/

lemma exists_cons_of_head {α : Type} (l : List α) (c : α) (h : l.head? = some c) :
    ∃ t, l = c :: t := by
  cases l with
  | nil => simp at h
  | cons x xs =>
    simp at h
    exact ⟨xs, by rw [h]⟩

lemma foldl_append_data (sep : String) : ∀ (as : List String) (acc : String),
    ∃ t, (List.foldl (fun x b => x ++ sep ++ b) acc as).data = acc.data ++ t := by
  intro as
  induction as with
  | nil => intro acc; exact ⟨[], by simp⟩
  | cons b bs ih =>
    intro acc
    obtain ⟨t, ht⟩ := ih (acc ++ sep ++ b)
    refine ⟨sep.data ++ b.data ++ t, ?_⟩
    simp only [List.foldl_cons]
    rw [ht]
    simp [String.data_append, List.append_assoc]

lemma joinSep_data (sep a : String) (as : List String) :
    ∃ t, (joinSep sep (a :: as)).data = a.data ++ t := by
  simpa [joinSep] using foldl_append_data sep as a

lemma joinSep_head (sep x : String) (xs : List String) (c : Char) (t : List Char)
    (hx : x.data = c :: t) : (joinSep sep (x :: xs)).data.head? = some c := by
  obtain ⟨u, hu⟩ := joinSep_data sep x xs
  rw [hu, hx]
  rfl

lemma dayBlock_head (kb : KB) (p : String) : (dayBlock kb p).data.head? = some '📍' := by
  unfold dayBlock
  simp [String.data_append]

lemma greeting_head : greetingMsg.data.head? = some '👋' := rfl

lemma greeting_no_colon : ':' ∉ greetingMsg.data := by decide

lemma ne_greeting_of_head (r : String) (c : Char) (h1 : r.data.head? = some c)
    (h2 : c ≠ '👋') : r ≠ greetingMsg := by
  intro he
  rw [he, greeting_head] at h1
  exact h2 (Option.some.inj h1).symm

lemma lookup_reply_ne_greeting (k d : String) : pyCapitalize k ++ ": " ++ d ≠ greetingMsg := by
  intro h
  have hd := congrArg String.data h
  simp only [String.data_append] at hd
  have hmem : ':' ∈ greetingMsg.data := by
    rw [← hd]
    simp
  exact greeting_no_colon hmem

lemma itinerary_reply_ne_greeting (kb : KB) (m : String) :
    buildItinerary kb m ≠ greetingMsg := by
  unfold buildItinerary
  by_cases hsel : (candidates kb m).isEmpty
  · rw [if_pos hsel]
    decide
  · rw [if_neg hsel]
    unfold dayBlocks
    cases hd : dayCountOf m with
    | zero =>
      simp only [List.range_zero, List.map_nil]
      show joinSep "\n\n" [] ≠ greetingMsg
      decide
    | succ n =>
      rw [List.range_succ_eq_map, List.map_cons]
      apply ne_greeting_of_head _ '📍' _ (by decide)
      obtain ⟨t2, ht2⟩ := exists_cons_of_head _ '📍' (dayBlock_head kb
        ((candidates kb m).getD (0 % (candidates kb m).length) ""))
      exact joinSep_head _ _ _ '📍' t2 ht2

/-! ## Claim C6 -/

lemma collapse_head : ∀ (l : List Char) (c : Char),
    ∃ t, collapseNewlines (c :: l) = c :: t := by
  intro l
  induction l with
  | nil => intro c; exact ⟨[], rfl⟩
  | cons c2 rest ih =>
    intro c
    by_cases h : c = '\n' ∧ c2 = '\n'
    · obtain ⟨t, ht⟩ := ih c2
      refine ⟨t, ?_⟩
      simp only [collapseNewlines]
      rw [if_pos h, ht, h.1, h.2]
    · refine ⟨collapseNewlines (c2 :: rest), ?_⟩
      simp only [collapseNewlines]
      rw [if_neg h]

lemma collapse_no_double : ∀ l s t : List Char,
    collapseNewlines l ≠ s ++ '\n' :: '\n' :: t := by
  intro l
  induction l using collapseNewlines.induct with
  | case1 =>
    intro s t h
    rw [show collapseNewlines [] = ([] : List Char) from rfl] at h
    obtain ⟨-, h2⟩ := List.append_eq_nil.mp h.symm
    exact absurd h2 (by simp)
  | case2 c =>
    intro s t h
    rw [show collapseNewlines [c] = [c] from rfl] at h
    have hl := congrArg List.length h
    simp at hl
    omega
  | case3 c1 c2 rest h ih =>
    intro s t hcontra
    rw [show collapseNewlines (c1 :: c2 :: rest) = collapseNewlines (c2 :: rest) from by
      simp only [collapseNewlines]; rw [if_pos h]] at hcontra
    exact ih s t hcontra
  | case4 c1 c2 rest h ih =>
    intro s t hcontra
    rw [show collapseNewlines (c1 :: c2 :: rest) = c1 :: collapseNewlines (c2 :: rest) from by
      simp only [collapseNewlines]; rw [if_neg h]] at hcontra
    cases s with
    | nil =>
      injection hcontra with h1 h2
      obtain ⟨t2, ht2⟩ := collapse_head rest c2
      rw [ht2] at h2
      injection h2 with h3 h4
      exact h ⟨h1, h3⟩
    | cons y s' =>
      injection hcontra with h1 h2
      exact ih s' t h2

/-- C6: the Gemini gateway post-processing.  If the stripped text equals
the out-of-context sentinel, the reply is the fixed redirect (never the
sentinel); otherwise a "STOP" finish reason returns the stripped text
with every run of two-or-more newlines collapsed to one (the collapsed
text never contains two consecutive newlines); any other finish reason
returns the fixed incomplete-response message. -/
theorem C6_gemini_postprocessing (r : GeminiResponse) :
    (pyStrip r.text = "OUT_OF_CONTEXT" →
      query_gemini (Except.ok r)
        = "I can only answer questions about Jharkhand tourism. How can I help you with your trip?" ∧
      query_gemini (Except.ok r) ≠ "OUT_OF_CONTEXT") ∧
    (pyStrip r.text ≠ "OUT_OF_CONTEXT" → r.finishReason = "STOP" →
      query_gemini (Except.ok r) = String.mk (collapseNewlines (pyStrip r.text).data)) ∧
    (pyStrip r.text ≠ "OUT_OF_CONTEXT" → r.finishReason ≠ "STOP" →
      query_gemini (Except.ok r)
        = "I couldn't complete the response. Please try rephrasing your question.") ∧
    (∀ s t, collapseNewlines (pyStrip r.text).data ≠ s ++ '\n' :: '\n' :: t) := by
  refine ⟨?_, ?_, ?_, fun s t => collapse_no_double _ s t⟩
  · intro h
    have he : query_gemini (Except.ok r)
        = "I can only answer questions about Jharkhand tourism. How can I help you with your trip?" := by
      simp [query_gemini, h]
    exact ⟨he, by rw [he]; decide⟩
  · intro h hs
    simp [query_gemini, h, hs]
  · intro h hs
    simp [query_gemini, h, hs]

/-- Witness for C6: the sentinel response, a truncated response, and a
normal response with a newline run, each at a concrete input. -/
theorem C6_witness :
    query_gemini (Except.ok ⟨"STOP", " a\n\n\nb "⟩) = "a\nb" ∧
    query_gemini (Except.ok ⟨"MAX_TOKENS", "truncated text"⟩)
      = "I couldn't complete the response. Please try rephrasing your question." ∧
    query_gemini (Except.ok ⟨"STOP", "  OUT_OF_CONTEXT  "⟩)
      = "I can only answer questions about Jharkhand tourism. How can I help you with your trip?" :=
  ⟨((C6_gemini_postprocessing ⟨"STOP", " a\n\n\nb "⟩).2.1 (by decide) rfl).trans (by decide),
   (C6_gemini_postprocessing ⟨"MAX_TOKENS", "truncated text"⟩).2.2.1 (by decide) (by decide),
   ((C6_gemini_postprocessing ⟨"STOP", "  OUT_OF_CONTEXT  "⟩).1 (by decide)).1⟩

/-! ## Claim C3 -/

/-- C3: the greeting gate.  A user id not in the greeted set gets the
fixed greeting regardless of message content and is recorded as seen;
for any id already in the set (which every later call's set contains,
since the set only grows), the handler never returns the greeting —
given that the external Gemini string is not itself the greeting text
(the fixed apologies and the knowledge-base reply shapes are proved
distinct from the greeting for every knowledge base). -/
theorem C3_greeting_gate (kb : KB) (s : List String) (uid msg : String) (g : Except Unit String)
    (hnew : uid ∉ s) :
    chat kb s uid msg g = (ChatOutcome.ok greetingMsg, uid :: s) ∧
    uid ∈ uid :: s ∧
    (∀ kb2 s2 msg2 g2, uid ∈ s2 → uid ∈ (chat kb2 s2 uid msg2 g2).2) ∧
    (∀ kb2 s2 msg2 g2, uid ∈ s2 → g2 ≠ Except.ok greetingMsg →
      (chat kb2 s2 uid msg2 g2).1 ≠ ChatOutcome.ok greetingMsg) := by
  refine ⟨by simp [chat, hnew], List.mem_cons_self uid s, ?_, ?_⟩
  · intro kb2 s2 msg2 g2 h2
    simp [chat, h2]
  · intro kb2 s2 msg2 g2 h2 hg
    rw [show (chat kb2 s2 uid msg2 g2).1 = chatBody kb2 (pyLower msg2) g2 from by
      simp [chat, h2]]
    by_cases hi : itineraryIntent (pyLower msg2)
    · rw [show chatBody kb2 (pyLower msg2) g2
          = ChatOutcome.ok (buildItinerary kb2 (pyLower msg2)) from by simp [chatBody, hi]]
      intro hcontra
      injection hcontra with h'
      exact itinerary_reply_ne_greeting kb2 (pyLower msg2) h'
    · cases hm : firstMatch kb2 (pyLower msg2) with
      | some e =>
        cases hd : pget e.2 "description" with
        | some d =>
          rw [show chatBody kb2 (pyLower msg2) g2
              = ChatOutcome.ok (pyCapitalize e.1 ++ ": " ++ d) from by
            simp [chatBody, hi, hm, hd]]
          intro hcontra
          injection hcontra with h'
          exact lookup_reply_ne_greeting e.1 d h'
        | none =>
          rw [show chatBody kb2 (pyLower msg2) g2 = ChatOutcome.exn from by
            simp [chatBody, hi, hm, hd]]
          exact fun hcontra => ChatOutcome.noConfusion hcontra
      | none =>
        cases g2 with
        | ok r2 =>
          rw [show chatBody kb2 (pyLower msg2) (Except.ok r2) = ChatOutcome.ok r2 from by
            simp [chatBody, hi, hm]]
          intro hcontra
          injection hcontra with h'
          exact hg (congrArg Except.ok h')
        | error u =>
          rw [show chatBody kb2 (pyLower msg2) (Except.error u)
              = ChatOutcome.ok "❌ Sorry, I had trouble processing your request." from by
            simp [chatBody, hi, hm]]
          intro hcontra
          injection hcontra with h'
          exact absurd h' (by decide)

/-- Witness for C3: a fresh user gets greeted and recorded; the same id,
once recorded, does not get the greeting again. -/
theorem C3_witness :
    chat [] [] "u" "hello" (Except.ok "x") = (ChatOutcome.ok greetingMsg, ["u"]) ∧
    (chat [] ["u"] "u" "plan a 2 day trip" (Except.ok "nice")).1 ≠ ChatOutcome.ok greetingMsg :=
  ⟨(C3_greeting_gate [] [] "u" "hello" (Except.ok "x") (by decide)).1,
   (C3_greeting_gate [] [] "u" "hello" (Except.ok "x") (by decide)).2.2.2 [] ["u"]
     "plan a 2 day trip" (Except.ok "nice") (by decide)
     (by intro h; injection h with h1; exact absurd h1 (by decide))⟩

/-! ## Claim C9 -/

/-- C9: the direct place lookup.  For an already-greeted user whose
message does not trigger the itinerary intent, if no key before
position i in the stored knowledge-base order occurs in the lowercased
message and the key at position i does (and its entry carries a
description), the reply is that first matching place rendered as
capitalized name, colon, description — stored order decides. -/
theorem C9_first_match_lookup (pre post : KB) (k : String) (info : PlaceInfo) (d : String)
    (s : List String) (uid msg : String) (g : Except Unit String)
    (hg : uid ∈ s)
    (hni : itineraryIntent (pyLower msg) = false)
    (hpre : ∀ e ∈ pre, substrB e.1 (pyLower msg) = false)
    (hk : substrB k (pyLower msg) = true)
    (hd : pget info "description" = some d) :
    (chat (pre ++ (k, info) :: post) s uid msg g).1
      = ChatOutcome.ok (pyCapitalize k ++ ": " ++ d) := by
  rw [show (chat (pre ++ (k, info) :: post) s uid msg g).1
      = chatBody (pre ++ (k, info) :: post) (pyLower msg) g from by simp [chat, hg]]
  unfold chatBody
  rw [if_neg (by rw [hni]; exact Bool.false_ne_true)]
  rw [firstMatch_append_skip (pyLower msg) pre ((k, info) :: post) hpre]
  simp [firstMatch, hk, hd]

/-- Witness for C9: the first key in stored order wins and the message
is matched after lowercasing. -/
theorem C9_witness :
    (chat [("deoghar", []), ("netarhat", [("description", "Hill station")])] ["u"] "u"
        "Visit Netarhat" (Except.ok "x")).1
      = ChatOutcome.ok "Netarhat: Hill station" :=
  (C9_first_match_lookup [("deoghar", [])] [] "netarhat" [("description", "Hill station")]
    "Hill station" ["u"] "u" "Visit Netarhat" (Except.ok "x") (by decide) (by decide)
    (by decide) (by decide) rfl).trans rfl

/-! ## Claim C10 -/

/-- C10: the itinerary candidate list is never empty.  The interest list
defaults to nature when no tag occurs in the message, every interest in
the static map carries a non-empty place list, so the concatenated
candidates are non-empty, the fall-back to all knowledge-base keys never
fires, and the itinerary branch never takes the no-matching-places error
branch (it always produces the joined day blocks). -/
theorem C10_candidates_nonempty (kb : KB) (m : String) :
    interestsOf m ≠ [] ∧
    ((∀ p ∈ interest_map, substrB p.1 m = false) → interestsOf m = ["nature"]) ∧
    (∀ p ∈ interest_map, p.2 ≠ []) ∧
    concatPlaces m ≠ [] ∧
    candidates kb m = concatPlaces m ∧
    buildItinerary kb m = joinSep "\n\n" (dayBlocks kb m) := by
  have hA : interestsOf m ≠ [] := by
    unfold interestsOf
    by_cases he : ((interest_map.map Prod.fst).filter (fun i => substrB i m)).isEmpty
    · rw [if_pos he]; simp
    · rw [if_neg he]
      intro hnil
      exact he (by rw [hnil]; rfl)
  have hmem : ∀ i ∈ interestsOf m, imGet i ≠ [] := by
    intro i hi
    unfold interestsOf at hi
    by_cases he : ((interest_map.map Prod.fst).filter (fun i => substrB i m)).isEmpty
    · rw [if_pos he] at hi
      simp at hi
      rw [hi]; decide
    · rw [if_neg he] at hi
      have hkeys := (List.mem_filter.mp hi).1
      have : i ∈ ["nature", "wildlife", "pilgrimage"] := by
        simpa [interest_map] using hkeys
      simp at this
      rcases this with rfl | rfl | rfl <;> decide
  have hD : concatPlaces m ≠ [] := by
    unfold concatPlaces
    cases hio : interestsOf m with
    | nil => exact absurd hio hA
    | cons i rest =>
      have hi : imGet i ≠ [] := hmem i (by rw [hio]; exact List.mem_cons_self i rest)
      intro hnil
      rw [List.flatMap_cons] at hnil
      exact hi (List.append_eq_nil.mp hnil).1
  have hDe : (concatPlaces m).isEmpty = false := by
    cases hc : concatPlaces m with
    | nil => exact absurd hc hD
    | cons a l => rfl
  have hE : candidates kb m = concatPlaces m := by
    simp [candidates, hDe]
  have hF : buildItinerary kb m = joinSep "\n\n" (dayBlocks kb m) := by
    have : (candidates kb m).isEmpty = false := by rw [hE, hDe]
    simp [buildItinerary, this]
  refine ⟨hA, ?_, by decide, hD, hE, hF⟩
  intro h
  have h1 : substrB "nature" m = false :=
    h ("nature", ["netarhat", "patratu", "hundru"]) (by simp [interest_map])
  have h2 : substrB "wildlife" m = false :=
    h ("wildlife", ["betla"]) (by simp [interest_map])
  have h3 : substrB "pilgrimage" m = false :=
    h ("pilgrimage", ["deoghar"]) (by simp [interest_map])
  simp [interestsOf, interest_map, h1, h2, h3]

/-- Witness for C10 at a concrete message with no interest tag and an
empty knowledge base. -/
theorem C10_witness :
    interestsOf "temple" = ["nature"] ∧
    concatPlaces "temple" ≠ [] ∧
    candidates [] "temple" = concatPlaces "temple" ∧
    buildItinerary [] "temple" = joinSep "\n\n" (dayBlocks [] "temple") :=
  ⟨(C10_candidates_nonempty [] "temple").2.1 (by decide),
   (C10_candidates_nonempty [] "temple").2.2.2.1,
   (C10_candidates_nonempty [] "temple").2.2.2.2.1,
   (C10_candidates_nonempty [] "temple").2.2.2.2.2⟩

/-! ## Claim C4 -/

/-- C4: at the failing input "plan a 2 day trip" (already-greeted user,
empty knowledge base) the itinerary reply has exactly 2 day entries, the
places cycle through the candidate list in order (netarhat then
patratu), and the day count comes from the regex — but no "Day i+1"
header appears anywhere in the reply: the code stores the headers only
as keys of the `plan` dict and joins `plan.values()`, dropping them. -/
theorem C4_day_labels_dropped :
    (chat [] ["u"] "u" "plan a 2 day trip" (Except.ok "x")).1
      = ChatOutcome.ok "📍 Netarhat - N/A\n   🕒 Best time: N/A\n   🎯 Activities: N/A\n\n📍 Patratu - N/A\n   🕒 Best time: N/A\n   🎯 Activities: N/A" ∧
    substrB "Day"
      "📍 Netarhat - N/A\n   🕒 Best time: N/A\n   🎯 Activities: N/A\n\n📍 Patratu - N/A\n   🕒 Best time: N/A\n   🎯 Activities: N/A" = false ∧
    dayCountOf (pyLower "plan a 2 day trip") = 2 ∧
    dayBlocks [] (pyLower "plan a 2 day trip")
      = [dayBlock [] "netarhat", dayBlock [] "patratu"] :=
  ⟨rfl, by decide, rfl, rfl⟩

end Tourism
